import Mathlib

/-!
Verification of the libsm64-blender interop core: a shallow embedding of the
coordinate conversion, collision-mesh extraction, input normalization,
spawn call, tick-mode selection and geometry decoding code, with theorems
settling the specification's claims about them.

Host-space floating point values are modelled as rationals; machine
integers as `Int`/`Nat` with explicit bounds where they matter.
-/

namespace LibSM64Blender

/-! ## Axis/scale conversion (`mario.py`) -/

/-- Python's `int()` applied to a real value: truncation toward zero.
This is the rounding performed inside `clamp_bounds` (`mario.py` line 211)
and in `interop.py` lines 83-85 and 121-129. -/
def pyInt (q : ℚ) : ℤ := if q < 0 then ⌈q⌉ else ⌊q⌋

/-- `clamp_bounds` from `mario.py` lines 210-217: truncate the value to an
integer, clamp it to `±0x7FFF`, and report whether it was in range
(`True` means no clamping happened). -/
def clamp_bounds (q : ℚ) : ℤ × Bool :=
  let val := pyInt q
  if val < -32767 then (-32767, false)
  else if val > 32767 then (32767, false)
  else (val, true)

/-- Host→engine vertex conversion as performed per vertex by
`get_surface_array_from_scene` (`mario.py` lines 228-236): engine
x from host x minus origin x, engine y from host z minus origin z,
engine z from negated host y plus origin y, each scaled, truncated
and clamped. -/
def to_engine_point (S o0 o1 o2 hx hy hz : ℚ) : ℤ × ℤ × ℤ :=
  ((clamp_bounds (S * (hx - o0))).1,
   (clamp_bounds (S * (hz - o2))).1,
   (clamp_bounds (S * (-hy + o1))).1)

/-- Engine→host conversion as performed by `tick_mario` (`mario.py` lines
193-197) and the geometry decoders (lines 370-378 and 408-416): host
x = origin x + engine x / scale, host y = origin y − engine z / scale,
host z = origin z + engine y / scale. -/
def engine_to_host (S o0 o1 o2 px py pz : ℚ) : ℚ × ℚ × ℚ :=
  (o0 + px / S, o1 - pz / S, o2 + py / S)

/-- Composition of the extractor's host→engine encoding with the decoder's
engine→host conversion on one host point. -/
def round_trip (S o0 o1 o2 hx hy hz : ℚ) : ℚ × ℚ × ℚ :=
  engine_to_host S o0 o1 o2
    ((to_engine_point S o0 o1 o2 hx hy hz).1 : ℚ)
    ((to_engine_point S o0 o1 o2 hx hy hz).2.1 : ℚ)
    ((to_engine_point S o0 o1 o2 hx hy hz).2.2 : ℚ)

/-! ## Scene-to-collision-mesh extraction (`mario.py` lines 219-259) -/

/-- One input triangle as produced by `get_all_surfaces`: world-space
vertex coordinates plus resolved surface-type and terrain codes. -/
structure HostTri where
  v0x : ℚ
  v0y : ℚ
  v0z : ℚ
  v1x : ℚ
  v1y : ℚ
  v1z : ℚ
  v2x : ℚ
  v2y : ℚ
  v2z : ℚ
  surftype : ℤ
  terrain : ℤ
deriving DecidableEq

/-- The `SM64Surface` ctypes structure (`mario.py` lines 24-32), with its
16-bit integer fields modelled as integers. -/
structure SM64Surface where
  surftype : ℤ
  force : ℤ
  terrain : ℤ
  v0x : ℤ
  v0y : ℤ
  v0z : ℤ
  v1x : ℤ
  v1y : ℤ
  v1z : ℤ
  v2x : ℤ
  v2y : ℤ
  v2z : ℤ
deriving DecidableEq

/-- Body of one iteration of the loop in `get_surface_array_from_scene`
(`mario.py` lines 227-257): convert the nine coordinates with
`clamp_bounds`, skip the triangle if any one vertex had all three of its
axes out of range, otherwise emit the clamped surface. -/
def process_surface (S o0 o1 o2 : ℚ) (t : HostTri) : Option SM64Surface :=
  let c0 := clamp_bounds (S * (t.v0x - o0))
  let c1 := clamp_bounds (S * (t.v0z - o2))
  let c2 := clamp_bounds (S * (-t.v0y + o1))
  let c3 := clamp_bounds (S * (t.v1x - o0))
  let c4 := clamp_bounds (S * (t.v1z - o2))
  let c5 := clamp_bounds (S * (-t.v1y + o1))
  let c6 := clamp_bounds (S * (t.v2x - o0))
  let c7 := clamp_bounds (S * (t.v2z - o2))
  let c8 := clamp_bounds (S * (-t.v2y + o1))
  if !c0.2 && !c1.2 && !c2.2 then none
  else if !c3.2 && !c4.2 && !c5.2 then none
  else if !c6.2 && !c7.2 && !c8.2 then none
  else some
    { surftype := t.surftype, force := 0, terrain := t.terrain,
      v0x := c0.1, v0y := c1.1, v0z := c2.1,
      v1x := c3.1, v1y := c4.1, v1z := c5.1,
      v2x := c6.1, v2y := c7.1, v2z := c8.1 }

/-- `get_surface_array_from_scene` (`mario.py` lines 219-259) on an
already-gathered triangle list: the dense output array, in encounter
order, of the triangles that were not skipped.  The returned count `j`
is the length of this list. -/
def get_surface_array_from_scene (S o0 o1 o2 : ℚ) (ts : List HostTri) :
    List SM64Surface :=
  ts.filterMap (process_surface S o0 o1 o2)

/-- The skip condition of the loop (`mario.py` lines 238-243): some vertex
has all three of its converted axes out of range. -/
def tri_dropped (S o0 o1 o2 : ℚ) (t : HostTri) : Bool :=
  (!(clamp_bounds (S * (t.v0x - o0))).2 && !(clamp_bounds (S * (t.v0z - o2))).2
      && !(clamp_bounds (S * (-t.v0y + o1))).2)
  || (!(clamp_bounds (S * (t.v1x - o0))).2 && !(clamp_bounds (S * (t.v1z - o2))).2
      && !(clamp_bounds (S * (-t.v1y + o1))).2)
  || (!(clamp_bounds (S * (t.v2x - o0))).2 && !(clamp_bounds (S * (t.v2z - o2))).2
      && !(clamp_bounds (S * (-t.v2y + o1))).2)

/-- The surface emitted for a kept triangle (`mario.py` lines 245-256):
each coordinate truncated and clamped. -/
def tri_emit (S o0 o1 o2 : ℚ) (t : HostTri) : SM64Surface :=
  { surftype := t.surftype, force := 0, terrain := t.terrain,
    v0x := (clamp_bounds (S * (t.v0x - o0))).1,
    v0y := (clamp_bounds (S * (t.v0z - o2))).1,
    v0z := (clamp_bounds (S * (-t.v0y + o1))).1,
    v1x := (clamp_bounds (S * (t.v1x - o0))).1,
    v1y := (clamp_bounds (S * (t.v1z - o2))).1,
    v1z := (clamp_bounds (S * (-t.v1y + o1))).1,
    v2x := (clamp_bounds (S * (t.v2x - o0))).1,
    v2y := (clamp_bounds (S * (t.v2z - o2))).1,
    v2z := (clamp_bounds (S * (-t.v2y + o1))).1 }

/-- A triangle whose first vertex has its x axis far out of range at scale
1 but its other two axes in range. -/
def bigTri : HostTri :=
  { v0x := 40000, v0y := 0, v0z := 0,
    v1x := 1, v1y := 1, v1z := 0,
    v2x := 0, v2y := 1, v2z := 0,
    surftype := 0, terrain := 1 }

/-! ## Input normalization (`input_reader.py`, `input_reader_win.py`) -/

/-- The `SM64MarioInputs` ctypes structure (`mario.py` lines 34-39):
camera-look direction, analog stick, three buttons. -/
structure MarioInputs where
  camLookX : ℚ
  camLookZ : ℚ
  stickX : ℚ
  stickY : ℚ
  buttonA : Bool
  buttonB : Bool
  buttonZ : Bool
deriving DecidableEq

/-- One raw evdev-style event: code string and integer state. -/
structure InputEvent where
  code : String
  state : ℤ
deriving DecidableEq

/-- `_read_axis` (`input_reader.py` lines 86-90, identical in
`input_reader_win.py` lines 65-69): divide by 32768, apply the 0.2
dead zone, rescale the remainder linearly. -/
def read_axis (val : ℚ) : ℚ :=
  let v := val / 32768
  if v < 0.2 ∧ v > -0.2 then 0
  else if v > 0 then (v - 0.2) / 0.8
  else (v + 0.2) / 0.8

/-- First if/elif chain of the event loop in `sample_input_reader`
(`input_reader.py` lines 45-63): stick axes and buttons. -/
def apply_event_move (m : MarioInputs) (e : InputEvent) : MarioInputs :=
  if e.code = "ABS_X" then { m with stickX := read_axis (e.state : ℚ) }
  else if e.code = "ABS_Y" then { m with stickY := read_axis (e.state : ℚ) }
  else if e.code = "BTN_SOUTH" then
    { m with buttonA := if e.state = 1 then true else false }
  else if e.code = "BTN_NORTH" then
    { m with buttonB := if e.state = 1 then true else false }
  else if e.code = "BTN_TL" then
    { m with buttonZ := if e.state = 1 then true else false }
  else m

/-- Second if/elif chain of the event loop (`input_reader.py` lines
64-81): camera pan and zoom from the right stick, with the 0.3
threshold. -/
def apply_event_cam (m : MarioInputs) (e : InputEvent) : MarioInputs :=
  if e.code = "ABS_RX" then
    { m with camLookX :=
        if read_axis (e.state : ℚ) > 0.3 then 1/8
        else if read_axis (e.state : ℚ) < -0.3 then -(1/8)
        else 0 }
  else if e.code = "ABS_RY" then
    { m with camLookZ :=
        if read_axis (e.state : ℚ) > 0.3 then 0.5
        else if read_axis (e.state : ℚ) < -0.3 then -0.5
        else 0 }
  else m

/-- One full iteration over a single event: both chains in order. -/
def apply_event (m : MarioInputs) (e : InputEvent) : MarioInputs :=
  apply_event_cam (apply_event_move m e) e

/-- `sample_input_reader` from `input_reader.py` (lines 32-84) in its
gamepad branch (`keyboard_control` false): zero the camera-look fields,
then drain every pending event packet in order.  When `events` is empty
the stick and button fields are left untouched. -/
def sample_input_reader_gamepad (m : MarioInputs)
    (events : List (List InputEvent)) : MarioInputs :=
  events.foldl (fun acc packet => packet.foldl apply_event acc)
    { m with camLookX := 0, camLookZ := 0 }

/-- `_sample_empty_inputs` (`input_reader_win.py` lines 58-63): zero the
stick axes and buttons (the camera-look fields are not touched). -/
def sample_empty_inputs (m : MarioInputs) : MarioInputs :=
  { m with stickX := 0, stickY := 0,
           buttonA := false, buttonB := false, buttonZ := false }

/-- `sample_input_reader` from `input_reader_win.py` (lines 39-56): drain
the queue keeping only the last line (modelled as an already-split list
of integers); if no line was pending, or the line has fewer than five
values, take the empty-inputs path; otherwise decode stick and buttons
from the first five values. -/
def sample_input_reader_win (m : MarioInputs) (lines : List (List ℤ)) :
    MarioInputs :=
  match lines.getLast? with
  | none => sample_empty_inputs m
  | some vals =>
    match vals with
    | v0 :: v1 :: v2 :: v3 :: v4 :: _ =>
      { m with stickX := read_axis (v0 : ℚ), stickY := read_axis (v1 : ℚ),
               buttonA := v2 != 0, buttonB := v3 != 0, buttonZ := v4 != 0 }
    | _ => sample_empty_inputs m

/-- A previous-inputs state with nonzero stick and a pressed button, used
to exhibit the zero-on-empty behaviour of the Windows variant. -/
def heldInputs : MarioInputs :=
  { camLookX := 0, camLookZ := 0, stickX := 1/2, stickY := 0,
    buttonA := true, buttonB := false, buttonZ := false }

/-! ## Spawn (`mario.py` line 134, `interop.py` lines 80-86) -/

/-- The three arguments `interop.py` lines 82-86 pass to
`sm64_mario_create`: `int(S*x)`, `int(S*z) + 100`, `-int(S*y)` of the
absolute start position (no origin subtraction). -/
def interop_spawn_args (S sx sy sz : ℚ) : ℤ × ℤ × ℤ :=
  (pyInt (S * sx), pyInt (S * sz) + 100, -pyInt (S * sy))

/-- The three arguments `mario.py` line 134 passes to `sm64_mario_create`:
the constant origin `(0, 0, 0)` (the 3D cursor becomes the origin
offset, and no vertical offset is added). -/
def mario_create_args : ℤ × ℤ × ℤ := (0, 0, 0)

/-- Observable outcome of the spawn-failure check in `insert_mario`
(`mario.py` lines 134-139): the returned error message, whether
`sm64_global_terminate` was called, and whether the library handle was
cleared (`sm64 = None`). -/
structure InsertOutcome where
  errMsg : Option String
  terminateCalled : Bool
  handleReleased : Bool
deriving DecidableEq

/-- The error string returned at `mario.py` line 139. -/
def no_ground_msg : String :=
  "There is no ground under the 3D cursor where mario will spawn"

/-- The spawn-failure branch of `insert_mario` (`mario.py` lines 136-139):
on a negative id, call global terminate, drop the handle and return the
message; otherwise continue with no error. -/
def insert_mario_spawn_check (mid : ℤ) : InsertOutcome :=
  if mid < 0 then
    { errMsg := some no_ground_msg, terminateCalled := true,
      handleReleased := true }
  else
    { errMsg := none, terminateCalled := false, handleReleased := false }

/-- `InsertMario_OT_Operator.execute` (`__init__.py` lines 84-89): the
operator reports an ERROR to the user exactly when `insert_mario`
returned a message. -/
def execute_reports_error (err : Option String) : Bool := err.isSome

/-! ## Entity id interpretation (`interop.py` line 81, `mario.py` line 120) -/

/-- `ctypes.c_uint32` view of the 32-bit value returned by the native
`sm64_mario_create`, as declared by `interop.py` line 81 and stored in
`SM64Mario.mario_id`. -/
def interop_mario_id (b : ℕ) : ℤ := (b : ℤ)

/-- `ctypes.c_int32` view of the same 32-bit return value, as declared by
`mario.py` line 120 (two's complement). -/
def mario_py_mario_id (b : ℕ) : ℤ :=
  if b < 2 ^ 31 then (b : ℤ) else (b : ℤ) - 2 ^ 32

/-! ## Tick-mode selection (`mario.py` lines 149-153 and 203-208) -/

/-- The two geometry decode paths of `tick_mario`. -/
inductive DecodeMode where
  | full : DecodeMode
  | fast : DecodeMode
deriving DecidableEq

/-- The branch at `mario.py` lines 203-206: full decode while
`tick_count < 15`, fast decode otherwise. -/
def tick_decode_mode (tick_count : ℕ) : DecodeMode :=
  if tick_count < 15 then DecodeMode.full else DecodeMode.fast

/-- The tick counter before the n-th tick after a successful spawn:
`insert_mario` resets it to 0 (line 151) and each `tick_mario` call
increments it once (line 208). -/
def tick_count_after : ℕ → ℕ
  | 0 => 0
  | n + 1 => tick_count_after n + 1

/-- The decode mode used by the n-th tick (0-indexed) after a spawn. -/
def mode_of_tick (n : ℕ) : DecodeMode := tick_decode_mode (tick_count_after n)

/-! ## Geometry buffer decoding (`mario.py` lines 366-418) -/

/-- The per-tick geometry output buffers (`SM64MarioGeometryBuffers`,
`mario.py` lines 49-67): flat position/uv/color arrays plus the used
triangle count. -/
structure GeoBuffers where
  position : ℕ → ℚ
  uv : ℕ → ℚ
  color : ℕ → ℚ
  numTrianglesUsed : ℕ

/-- The host mesh state touched by the decoders: per-vertex coordinates,
per-loop uv data and per-loop vertex colors. -/
structure HostMesh where
  verts : ℕ → ℚ × ℚ × ℚ
  uvs : ℕ → ℚ × ℚ
  cols : ℕ → ℚ × ℚ × ℚ × ℚ

/-- The host-space coordinates written for mesh vertex `k` (position
buffer entries `3k`, `3k+1`, `3k+2`; `mario.py` lines 370-378): the
engine→host conversion of §`engine_to_host` applied per vertex. -/
def decode_vert (S o0 o1 o2 : ℚ) (geo : GeoBuffers) (k : ℕ) : ℚ × ℚ × ℚ :=
  (o0 + geo.position (3 * k) / S,
   o1 - geo.position (3 * k + 2) / S,
   o2 + geo.position (3 * k + 1) / S)

/-- One iteration of the loop in `update_mesh_data` (`mario.py` lines
369-399): write positions, uv and color of the three vertices of
triangle `i`. -/
def write_tri (S o0 o1 o2 : ℚ) (geo : GeoBuffers) (m : HostMesh) (i : ℕ) :
    HostMesh :=
  { verts := Function.update (Function.update (Function.update m.verts
      (3 * i) (decode_vert S o0 o1 o2 geo (3 * i)))
      (3 * i + 1) (decode_vert S o0 o1 o2 geo (3 * i + 1)))
      (3 * i + 2) (decode_vert S o0 o1 o2 geo (3 * i + 2)),
    uvs := Function.update (Function.update (Function.update m.uvs
      (3 * i) (geo.uv (2 * (3 * i)), geo.uv (2 * (3 * i) + 1)))
      (3 * i + 1) (geo.uv (2 * (3 * i + 1)), geo.uv (2 * (3 * i + 1) + 1)))
      (3 * i + 2) (geo.uv (2 * (3 * i + 2)), geo.uv (2 * (3 * i + 2) + 1)),
    cols := Function.update (Function.update (Function.update m.cols
      (3 * i) (geo.color (3 * (3 * i)), geo.color (3 * (3 * i) + 1),
               geo.color (3 * (3 * i) + 2), 1))
      (3 * i + 1) (geo.color (3 * (3 * i + 1)), geo.color (3 * (3 * i + 1) + 1),
                   geo.color (3 * (3 * i + 1) + 2), 1))
      (3 * i + 2) (geo.color (3 * (3 * i + 2)), geo.color (3 * (3 * i + 2) + 1),
                   geo.color (3 * (3 * i + 2) + 2), 1) }

/-- One iteration of the loop in `update_mesh_data_fast` (`mario.py` lines
407-416): positions only. -/
def write_tri_fast (S o0 o1 o2 : ℚ) (geo : GeoBuffers) (m : HostMesh)
    (i : ℕ) : HostMesh :=
  { m with
    verts := Function.update (Function.update (Function.update m.verts
      (3 * i) (decode_vert S o0 o1 o2 geo (3 * i)))
      (3 * i + 1) (decode_vert S o0 o1 o2 geo (3 * i + 1)))
      (3 * i + 2) (decode_vert S o0 o1 o2 geo (3 * i + 2)) }

/-- `update_mesh_data` (`mario.py` lines 366-400): the full decode loop
over triangles `0 .. numTrianglesUsed - 1`. -/
def update_mesh_data (S o0 o1 o2 : ℚ) (geo : GeoBuffers) (m : HostMesh) :
    HostMesh :=
  (List.range geo.numTrianglesUsed).foldl (write_tri S o0 o1 o2 geo) m

/-- `update_mesh_data_fast` (`mario.py` lines 402-418): the position-only
decode loop over the same range. -/
def update_mesh_data_fast (S o0 o1 o2 : ℚ) (geo : GeoBuffers) (m : HostMesh) :
    HostMesh :=
  (List.range geo.numTrianglesUsed).foldl (write_tri_fast S o0 o1 o2 geo) m

/-- A one-triangle geometry buffer with all-zero data, for witnesses. -/
def oneTriGeo : GeoBuffers :=
  { position := fun _ => 0, uv := fun _ => 0, color := fun _ => 0,
    numTrianglesUsed := 1 }

/-- A mesh whose every vertex starts at `(7, 7, 7)`, for witnesses. -/
def sevenMesh : HostMesh :=
  { verts := fun _ => (7, 7, 7), uvs := fun _ => (7, 7),
    cols := fun _ => (7, 7, 7, 7) }

/-! ## Helper lemmas on truncation and clamping -/

/-- Truncation toward zero never grows the magnitude. -/
theorem abs_pyInt_le (q : ℚ) : |(pyInt q : ℚ)| ≤ |q| := by
  unfold pyInt
  split
  next h =>
    have hceil0 : ⌈q⌉ ≤ 0 := Int.ceil_le.mpr (by push_cast; exact h.le)
    have hceil : (⌈q⌉ : ℚ) ≤ 0 := by exact_mod_cast hceil0
    rw [abs_of_nonpos hceil, abs_of_neg h]
    have := Int.le_ceil q
    linarith
  next h =>
    have hq : 0 ≤ q := not_lt.mp h
    have hfl : (0 : ℚ) ≤ (⌊q⌋ : ℚ) := by exact_mod_cast Int.floor_nonneg.mpr hq
    rw [abs_of_nonneg hfl, abs_of_nonneg hq]
    exact Int.floor_le q

/-- The truncation error of `pyInt` is strictly below one. -/
theorem abs_sub_pyInt_lt_one (q : ℚ) : |q - (pyInt q : ℚ)| < 1 := by
  unfold pyInt
  split
  next h =>
    rw [abs_lt]
    constructor <;> linarith [Int.le_ceil q, Int.ceil_lt_add_one q]
  next h =>
    rw [abs_lt]
    constructor <;> linarith [Int.floor_le q, Int.lt_floor_add_one q]

/-- When the scaled value is within the representable range, `clamp_bounds`
performs no clamping and returns the truncated value flagged in-range. -/
theorem clamp_bounds_eq_of_abs_le (q : ℚ) (h : |q| ≤ 32767) :
    clamp_bounds q = (pyInt q, true) := by
  have h1 : |(pyInt q : ℚ)| ≤ 32767 := le_trans (abs_pyInt_le q) h
  rw [abs_le] at h1
  have hge : -32767 ≤ pyInt q := by exact_mod_cast h1.1
  have hle : pyInt q ≤ 32767 := by exact_mod_cast h1.2
  simp only [clamp_bounds]
  rw [if_neg (by omega), if_neg (by omega)]

/-! ## Claim theorems -/

/-- Claim C2, counterexample: the Extractor's host→engine conversion does
not use nearest-integer rounding.  At scale 50, origin 0 and host x value
19/500 the scaled value is 1.9; the code produces 1 (truncation toward
zero) while round(1.9) = 2. -/
theorem C2_counterexample :
    (to_engine_point 50 0 0 0 (19/500) 0 0).1 = 1 ∧
    round ((50 : ℚ) * (19/500 - 0)) = 2 ∧
    (to_engine_point 50 0 0 0 (19/500) 0 0).1 ≠ round ((50 : ℚ) * (19/500 - 0)) := by
  have h1 : (to_engine_point 50 0 0 0 (19/500) 0 0).1 = 1 := by
    norm_num [to_engine_point, clamp_bounds, pyInt]
  have h2 : round ((50 : ℚ) * (19/500 - 0)) = 2 := by
    rw [round_eq]
    norm_num
  exact ⟨h1, h2, by rw [h1, h2]; decide⟩

/-- Claim C2, amended: the host→engine conversion used by the Extractor
computes `int(scale * (host − origin))`, truncating toward zero (error
strictly below one) rather than rounding to nearest, then clamps to
±32767 (no clamping within range), with engine X = host X, engine
Y = host Z, engine Z = −host Y; the engine→host conversion is the exact
inverse of the unrounded map with the sign flip undone. -/
theorem C2_amended (S o0 o1 o2 hx hy hz : ℚ) (hS : S ≠ 0)
    (h1 : |S * (hx - o0)| ≤ 32767) (h2 : |S * (hz - o2)| ≤ 32767)
    (h3 : |S * (-hy + o1)| ≤ 32767) :
    to_engine_point S o0 o1 o2 hx hy hz
      = (pyInt (S * (hx - o0)), pyInt (S * (hz - o2)), pyInt (S * (-hy + o1)))
    ∧ |S * (hx - o0) - (pyInt (S * (hx - o0)) : ℚ)| < 1
    ∧ engine_to_host S o0 o1 o2 (S * (hx - o0)) (S * (hz - o2)) (S * (-hy + o1))
        = (hx, hy, hz) := by
  refine ⟨?_, abs_sub_pyInt_lt_one _, ?_⟩
  · unfold to_engine_point
    rw [clamp_bounds_eq_of_abs_le _ h1, clamp_bounds_eq_of_abs_le _ h2,
        clamp_bounds_eq_of_abs_le _ h3]
  · simp only [engine_to_host, Prod.mk.injEq]
    refine ⟨?_, ?_, ?_⟩ <;> field_simp

/-- Witness for `C2_amended` at scale 1, origin 0, host point (3, 5, 7). -/
theorem C2_amended_witness :
    (1 : ℚ) ≠ 0 ∧ |(1 : ℚ) * (3 - 0)| ≤ 32767 ∧
    (to_engine_point 1 0 0 0 3 5 7
        = (pyInt ((1 : ℚ) * (3 - 0)), pyInt ((1 : ℚ) * (7 - 0)),
           pyInt ((1 : ℚ) * (-5 + 0)))
      ∧ |(1 : ℚ) * (3 - 0) - (pyInt ((1 : ℚ) * (3 - 0)) : ℚ)| < 1
      ∧ engine_to_host 1 0 0 0 (1 * (3 - 0)) (1 * (7 - 0)) (1 * (-5 + 0))
          = (3, 5, 7)) :=
  ⟨by norm_num, by norm_num [abs_le],
   C2_amended 1 0 0 0 3 5 7 (by norm_num) (by norm_num [abs_le])
     (by norm_num [abs_le]) (by norm_num [abs_le])⟩

/-- Claim C3, counterexample: spawning at host point (0, 0, 5) with scale
50 does not pass (0, 100, 0) to the native entity-create call.  The
`interop.py` variant passes (0, 350, 0) — it applies no origin offset and
adds 100 to the converted absolute height — and the `mario.py` variant
passes the constant (0, 0, 0) with no vertical offset at all. -/
theorem C3_counterexample :
    interop_spawn_args 50 0 0 5 = (0, 350, 0) ∧
    mario_create_args = (0, 0, 0) ∧
    interop_spawn_args 50 0 0 5 ≠ (0, 100, 0) ∧
    mario_create_args ≠ (0, 100, 0) := by
  have h : interop_spawn_args 50 0 0 5 = (0, 350, 0) := by
    norm_num [interop_spawn_args, pyInt]
  refine ⟨h, rfl, ?_, ?_⟩
  · rw [h]; decide
  · decide

/-- Claim C3, amended: with scale 50 and host spawn point (0, 0, 5), the
`interop.py` variant passes `(int(50·0), int(50·5) + 100, −int(50·0))`
= (0, 350, 0) — converted absolute point plus the fixed vertical offset
of 100 engine units, no origin subtraction — while the `mario.py` variant
always passes the constant (0, 0, 0) (spawn at the origin offset, no
vertical offset). -/
theorem C3_amended :
    interop_spawn_args 50 0 0 5
      = (pyInt ((50 : ℚ) * 0), pyInt ((50 : ℚ) * 5) + 100, -pyInt ((50 : ℚ) * 0)) ∧
    interop_spawn_args 50 0 0 5 = (0, 350, 0) ∧
    mario_create_args = (0, 0, 0) := by
  refine ⟨rfl, ?_, rfl⟩
  norm_num [interop_spawn_args, pyInt]

/-- Claim C5: whenever the native entity-create call returns a negative
id, `insert_mario` returns the no-ground error message (which the
operator reports to the user), calls the native global-terminate entry
point and releases the library handle. -/
theorem C5_spawn_failure (mid : ℤ) (h : mid < 0) :
    (insert_mario_spawn_check mid).errMsg = some no_ground_msg ∧
    (insert_mario_spawn_check mid).terminateCalled = true ∧
    (insert_mario_spawn_check mid).handleReleased = true ∧
    execute_reports_error (insert_mario_spawn_check mid).errMsg = true := by
  simp [insert_mario_spawn_check, execute_reports_error, h]

/-- Witness for `C5_spawn_failure` at id −1. -/
theorem C5_spawn_failure_witness :
    (-1 : ℤ) < 0 ∧
    ((insert_mario_spawn_check (-1)).errMsg = some no_ground_msg ∧
     (insert_mario_spawn_check (-1)).terminateCalled = true ∧
     (insert_mario_spawn_check (-1)).handleReleased = true ∧
     execute_reports_error (insert_mario_spawn_check (-1)).errMsg = true) :=
  ⟨by decide, C5_spawn_failure (-1) (by decide)⟩

/-- Claim C6: the axis normalization returns exactly 0 whenever the
divided value has magnitude at most 0.2 (dead zone, boundary included),
and exactly ±1 when the divided value is exactly ±1. -/
theorem C6_dead_zone (raw : ℚ) :
    (|raw / 32768| ≤ 0.2 → read_axis raw = 0) ∧
    (raw / 32768 = 1 → read_axis raw = 1) ∧
    (raw / 32768 = -1 → read_axis raw = -1) := by
  refine ⟨?_, ?_, ?_⟩
  · intro h
    rw [abs_le] at h
    simp only [read_axis]
    split_ifs with h1 h2
    · rfl
    · have hv : raw / 32768 = 0.2 := by
        push_neg at h1
        rcases lt_or_ge (raw / 32768) 0.2 with hlt | hge
        · exfalso
          have := h1 hlt
          have hlow := h.1
          norm_num at this hlow ⊢
          linarith
        · have hhigh := h.2
          linarith
      rw [hv]; norm_num
    · have hv : raw / 32768 = -0.2 := by
        push_neg at h1
        have hle : raw / 32768 ≤ -0.2 := by
          apply h1
          have : ¬ raw / 32768 > 0 := h2
          norm_num at this ⊢
          linarith
        have hlow := h.1
        linarith
      rw [hv]; norm_num
  · intro h
    simp only [read_axis]
    rw [h]
    norm_num
  · intro h
    simp only [read_axis]
    rw [h]
    norm_num

/-- Witness for `C6_dead_zone`: raw 6000 lies in the dead zone and maps to
0; raw ±32768 maps to exactly ±1. -/
theorem C6_dead_zone_witness :
    read_axis 6000 = 0 ∧ read_axis 32768 = 1 ∧ read_axis (-32768) = -1 :=
  ⟨(C6_dead_zone 6000).1 (by norm_num [abs_le]),
   (C6_dead_zone 32768).2.1 (by norm_num),
   (C6_dead_zone (-32768)).2.2 (by norm_num)⟩

/-- Claim C7, counterexample: the round-trip error is not bounded by 1/S
for every host point — for a point clamped by the encoder (host x 40000
at scale 1, origin 0) the recovered coordinate is 32767, an error of 7233
exceeding 1/1. -/
theorem C7_counterexample :
    round_trip 1 0 0 0 40000 0 0 = (32767, 0, 0) ∧
    ¬|(round_trip 1 0 0 0 40000 0 0).1 - 40000| ≤ 1 / 1 := by
  have h : round_trip 1 0 0 0 40000 0 0 = (32767, 0, 0) := by
    norm_num [round_trip, to_engine_point, engine_to_host, clamp_bounds, pyInt]
  refine ⟨h, ?_⟩
  rw [h]
  norm_num [abs_le]

/-- Claim C7, amended: for scale S > 0 and any host point whose scaled,
origin-shifted coordinates all lie within the representable ±32767 range,
host→engine followed by engine→host recovers each coordinate to within
1/S. -/
theorem C7_amended (S o0 o1 o2 hx hy hz : ℚ) (hS : 0 < S)
    (h1 : |S * (hx - o0)| ≤ 32767) (h2 : |S * (hz - o2)| ≤ 32767)
    (h3 : |S * (-hy + o1)| ≤ 32767) :
    |(round_trip S o0 o1 o2 hx hy hz).1 - hx| ≤ 1 / S ∧
    |(round_trip S o0 o1 o2 hx hy hz).2.1 - hy| ≤ 1 / S ∧
    |(round_trip S o0 o1 o2 hx hy hz).2.2 - hz| ≤ 1 / S := by
  have hS0 : S ≠ 0 := ne_of_gt hS
  unfold round_trip to_engine_point engine_to_host
  rw [clamp_bounds_eq_of_abs_le _ h1, clamp_bounds_eq_of_abs_le _ h2,
      clamp_bounds_eq_of_abs_le _ h3]
  dsimp only
  refine ⟨?_, ?_, ?_⟩
  · have key : o0 + (pyInt (S * (hx - o0)) : ℚ) / S - hx
        = ((pyInt (S * (hx - o0)) : ℚ) - S * (hx - o0)) / S := by
      field_simp
      ring
    rw [key, abs_div, abs_of_pos hS, div_le_div_iff_of_pos_right hS,
        abs_sub_comm]
    exact (abs_sub_pyInt_lt_one _).le
  · have key : o1 - (pyInt (S * (-hy + o1)) : ℚ) / S - hy
        = (S * (-hy + o1) - (pyInt (S * (-hy + o1)) : ℚ)) / S := by
      field_simp
      ring
    rw [key, abs_div, abs_of_pos hS, div_le_div_iff_of_pos_right hS]
    exact (abs_sub_pyInt_lt_one _).le
  · have key : o2 + (pyInt (S * (hz - o2)) : ℚ) / S - hz
        = ((pyInt (S * (hz - o2)) : ℚ) - S * (hz - o2)) / S := by
      field_simp
      ring
    rw [key, abs_div, abs_of_pos hS, div_le_div_iff_of_pos_right hS,
        abs_sub_comm]
    exact (abs_sub_pyInt_lt_one _).le

/-- Witness for `C7_amended` at scale 2, origin 0, host point (3, 5, 7). -/
theorem C7_amended_witness :
    (0 : ℚ) < 2 ∧ |(2 : ℚ) * (3 - 0)| ≤ 32767 ∧
    (|(round_trip 2 0 0 0 3 5 7).1 - 3| ≤ 1 / 2 ∧
     |(round_trip 2 0 0 0 3 5 7).2.1 - 5| ≤ 1 / 2 ∧
     |(round_trip 2 0 0 0 3 5 7).2.2 - 7| ≤ 1 / 2) :=
  ⟨by norm_num, by norm_num [abs_le],
   C7_amended 2 0 0 0 3 5 7 (by norm_num) (by norm_num [abs_le])
     (by norm_num [abs_le]) (by norm_num [abs_le])⟩

/-- Claim C8: after a successful spawn the tick counter starts at 0 and
increments once per tick, so exactly the ticks with counter values
0 through 14 (the first 15 ticks) use the full geometry decode path and
every later tick uses the fast path; the switch happens exactly at the
boundary and never reverts. -/
theorem C8_decode_mode_boundary (n : ℕ) :
    (mode_of_tick n = DecodeMode.full ↔ n < 15) ∧
    (mode_of_tick n = DecodeMode.fast ↔ 15 ≤ n) := by
  have hc : tick_count_after n = n := by
    induction n with
    | zero => rfl
    | succ k ih => simp [tick_count_after, ih]
  constructor <;> rw [mode_of_tick, hc, tick_decode_mode] <;>
    split_ifs with h <;> simp_all

/-- Claim C10: because `interop.py` declares the entity-create return type
as unsigned 32-bit, the stored `mario_id` is non-negative for every
possible 32-bit native return value, so the negative-id spawn-failure
condition cannot be detected there; `mario.py` declares it signed 32-bit,
under which the all-ones pattern is −1 < 0. -/
theorem C10_unsigned_id (b : ℕ) (hb : b < 2 ^ 32) :
    0 ≤ interop_mario_id b ∧ ¬interop_mario_id b < 0 ∧
    mario_py_mario_id (2 ^ 32 - 1) = -1 ∧ mario_py_mario_id (2 ^ 32 - 1) < 0 := by
  refine ⟨Int.natCast_nonneg b, not_lt.mpr (Int.natCast_nonneg b), ?_, ?_⟩ <;>
    norm_num [mario_py_mario_id]

/-- Witness for `C10_unsigned_id` at the all-ones 32-bit pattern. -/
theorem C10_unsigned_id_witness :
    2 ^ 32 - 1 < 2 ^ 32 ∧
    (0 ≤ interop_mario_id (2 ^ 32 - 1) ∧
     ¬interop_mario_id (2 ^ 32 - 1) < 0 ∧
     mario_py_mario_id (2 ^ 32 - 1) = -1 ∧ mario_py_mario_id (2 ^ 32 - 1) < 0) :=
  ⟨by norm_num, C10_unsigned_id (2 ^ 32 - 1) (by norm_num)⟩

/-! ## Extractor loop characterization -/

/-- The loop body skips a triangle exactly when `tri_dropped` holds and
otherwise emits the clamped surface. -/
theorem process_surface_eq (S o0 o1 o2 : ℚ) (t : HostTri) :
    process_surface S o0 o1 o2 t =
      if tri_dropped S o0 o1 o2 t then none else some (tri_emit S o0 o1 o2 t) := by
  simp only [process_surface, tri_dropped, tri_emit]
  cases h0 : (!(clamp_bounds (S * (t.v0x - o0))).2
      && !(clamp_bounds (S * (t.v0z - o2))).2
      && !(clamp_bounds (S * (-t.v0y + o1))).2) <;>
  cases h1 : (!(clamp_bounds (S * (t.v1x - o0))).2
      && !(clamp_bounds (S * (t.v1z - o2))).2
      && !(clamp_bounds (S * (-t.v1y + o1))).2) <;>
  cases h2 : (!(clamp_bounds (S * (t.v2x - o0))).2
      && !(clamp_bounds (S * (t.v2z - o2))).2
      && !(clamp_bounds (S * (-t.v2y + o1))).2) <;>
  simp [h0, h1, h2]

/-- `filterMap` of a skip-or-emit body is a filter followed by a map. -/
theorem filterMap_if_none {α β : Type} (p : α → Bool) (g : α → β)
    (l : List α) :
    l.filterMap (fun t => if p t then none else some (g t)) =
      (l.filter (fun t => !p t)).map g := by
  induction l with
  | nil => rfl
  | cons a l ih =>
    by_cases h : p a <;> simp [List.filterMap_cons, List.filter_cons, h, ih]

/-- Counting: keeping the non-`p` elements leaves length minus the `p`
count. -/
theorem length_filter_not {α : Type} (p : α → Bool) (l : List α) :
    (l.filter (fun t => !p t)).length = l.length - (l.filter p).length := by
  induction l with
  | nil => rfl
  | cons a l ih =>
    have hle := List.length_filter_le p l
    by_cases h : p a <;> simp [List.filter_cons, h, ih] <;> omega

/-- Claim C1, counterexample: a triangle whose first vertex has its x axis
out of the 16-bit range (scaled value 40000 > 32767) is still kept by
`get_surface_array_from_scene` — the code drops a triangle only when some
vertex has all three axes out of range, clamping single axes instead. -/
theorem C1_counterexample :
    32767 < (1 : ℚ) * (bigTri.v0x - 0) ∧
    tri_dropped 1 0 0 0 bigTri = false ∧
    (get_surface_array_from_scene 1 0 0 0 [bigTri]).length = 1 := by
  refine ⟨by norm_num [bigTri], ?_, ?_⟩
  · norm_num [tri_dropped, clamp_bounds, pyInt, bigTri]
  · norm_num [get_surface_array_from_scene, List.filterMap_cons,
      process_surface, clamp_bounds, pyInt, bigTri]

/-- Claim C1, amended: the Extractor excludes a triangle exactly when some
single vertex has all three of its converted axes out of the 16-bit
range; otherwise the triangle is kept with each out-of-range axis clamped
to ±32767.  The output is the dense, encounter-ordered map of the kept
triangles, and its count equals the input count minus exactly the number
of excluded triangles. -/
theorem C1_amended (S o0 o1 o2 : ℚ) (ts : List HostTri) :
    get_surface_array_from_scene S o0 o1 o2 ts =
      (ts.filter (fun t => !tri_dropped S o0 o1 o2 t)).map (tri_emit S o0 o1 o2) ∧
    (get_surface_array_from_scene S o0 o1 o2 ts).length =
      ts.length - (ts.filter (fun t => tri_dropped S o0 o1 o2 t)).length := by
  have hfm : get_surface_array_from_scene S o0 o1 o2 ts =
      (ts.filter (fun t => !tri_dropped S o0 o1 o2 t)).map (tri_emit S o0 o1 o2) := by
    unfold get_surface_array_from_scene
    have hbody : process_surface S o0 o1 o2 = fun t =>
        if tri_dropped S o0 o1 o2 t then none else some (tri_emit S o0 o1 o2 t) := by
      funext t
      exact process_surface_eq S o0 o1 o2 t
    rw [hbody, filterMap_if_none]
  refine ⟨hfm, ?_⟩
  rw [hfm, List.length_map, length_filter_not]

/-- Claim C4, counterexample: in the Windows variant an empty queue (no
new input data, with no signal that the device terminated) does not hold
the previous values — the sampler takes the empty-inputs path and zeroes
the stick and button fields. -/
theorem C4_counterexample :
    sample_input_reader_win heldInputs [] = sample_empty_inputs heldInputs ∧
    (sample_input_reader_win heldInputs []).stickX ≠ heldInputs.stickX ∧
    (sample_input_reader_win heldInputs []).buttonA ≠ heldInputs.buttonA := by
  refine ⟨rfl, ?_, ?_⟩ <;>
    norm_num [sample_input_reader_win, sample_empty_inputs, heldInputs]

/-- Claim C4, amended: the evdev/gamepad variant holds the previous stick
and button values when no events are pending (only the camera-look fields
are reset), while the Windows subprocess variant zeroes the stick and
button fields whenever no line — or only a line with fewer than five
values — is available, regardless of device state. -/
theorem C4_amended (m : MarioInputs) :
    (sample_input_reader_gamepad m []).stickX = m.stickX ∧
    (sample_input_reader_gamepad m []).stickY = m.stickY ∧
    (sample_input_reader_gamepad m []).buttonA = m.buttonA ∧
    (sample_input_reader_gamepad m []).buttonB = m.buttonB ∧
    (sample_input_reader_gamepad m []).buttonZ = m.buttonZ ∧
    sample_input_reader_win m [] = sample_empty_inputs m ∧
    (∀ vals : List ℤ, vals.length < 5 →
      sample_input_reader_win m [vals] = sample_empty_inputs m) := by
  refine ⟨rfl, rfl, rfl, rfl, rfl, rfl, ?_⟩
  intro vals h
  match vals with
  | [] => rfl
  | [a] => rfl
  | [a, b] => rfl
  | [a, b, c] => rfl
  | [a, b, c, d] => rfl
  | a :: b :: c :: d :: e :: rest =>
    simp only [List.length_cons] at h
    omega

/-- Witness for `C4_amended`: a two-value line is treated as empty. -/
theorem C4_amended_witness :
    ([(3 : ℤ), 4]).length < 5 ∧
    sample_input_reader_win heldInputs [[(3 : ℤ), 4]]
      = sample_empty_inputs heldInputs :=
  ⟨by decide, (C4_amended heldInputs).2.2.2.2.2.2 [(3 : ℤ), 4] (by decide)⟩

/-! ## Decoder write-extent lemmas -/

/-- Pointwise effect of one full-decode loop iteration on the vertex
array. -/
theorem write_tri_verts_apply (S o0 o1 o2 : ℚ) (geo : GeoBuffers)
    (m : HostMesh) (i k : ℕ) :
    (write_tri S o0 o1 o2 geo m i).verts k =
      if 3 * i ≤ k ∧ k < 3 * i + 3 then decode_vert S o0 o1 o2 geo k
      else m.verts k := by
  simp only [write_tri]
  by_cases h2 : k = 3 * i + 2
  · subst h2
    rw [Function.update_same, if_pos (by omega)]
  · rw [Function.update_noteq h2]
    by_cases h1 : k = 3 * i + 1
    · subst h1
      rw [Function.update_same, if_pos (by omega)]
    · rw [Function.update_noteq h1]
      by_cases h0 : k = 3 * i
      · subst h0
        rw [Function.update_same, if_pos (by omega)]
      · rw [Function.update_noteq h0, if_neg (by omega)]

/-- Pointwise effect of one full-decode loop iteration on the uv array. -/
theorem write_tri_uvs_apply (S o0 o1 o2 : ℚ) (geo : GeoBuffers)
    (m : HostMesh) (i k : ℕ) :
    (write_tri S o0 o1 o2 geo m i).uvs k =
      if 3 * i ≤ k ∧ k < 3 * i + 3 then (geo.uv (2 * k), geo.uv (2 * k + 1))
      else m.uvs k := by
  simp only [write_tri]
  by_cases h2 : k = 3 * i + 2
  · subst h2
    rw [Function.update_same, if_pos (by omega)]
  · rw [Function.update_noteq h2]
    by_cases h1 : k = 3 * i + 1
    · subst h1
      rw [Function.update_same, if_pos (by omega)]
    · rw [Function.update_noteq h1]
      by_cases h0 : k = 3 * i
      · subst h0
        rw [Function.update_same, if_pos (by omega)]
      · rw [Function.update_noteq h0, if_neg (by omega)]

/-- Pointwise effect of one full-decode loop iteration on the vertex-color
array. -/
theorem write_tri_cols_apply (S o0 o1 o2 : ℚ) (geo : GeoBuffers)
    (m : HostMesh) (i k : ℕ) :
    (write_tri S o0 o1 o2 geo m i).cols k =
      if 3 * i ≤ k ∧ k < 3 * i + 3 then
        (geo.color (3 * k), geo.color (3 * k + 1), geo.color (3 * k + 2), 1)
      else m.cols k := by
  simp only [write_tri]
  by_cases h2 : k = 3 * i + 2
  · subst h2
    rw [Function.update_same, if_pos (by omega)]
  · rw [Function.update_noteq h2]
    by_cases h1 : k = 3 * i + 1
    · subst h1
      rw [Function.update_same, if_pos (by omega)]
    · rw [Function.update_noteq h1]
      by_cases h0 : k = 3 * i
      · subst h0
        rw [Function.update_same, if_pos (by omega)]
      · rw [Function.update_noteq h0, if_neg (by omega)]

/-- Pointwise effect of one fast-decode loop iteration on the vertex
array. -/
theorem write_tri_fast_verts_apply (S o0 o1 o2 : ℚ) (geo : GeoBuffers)
    (m : HostMesh) (i k : ℕ) :
    (write_tri_fast S o0 o1 o2 geo m i).verts k =
      if 3 * i ≤ k ∧ k < 3 * i + 3 then decode_vert S o0 o1 o2 geo k
      else m.verts k := by
  simp only [write_tri_fast]
  by_cases h2 : k = 3 * i + 2
  · subst h2
    rw [Function.update_same, if_pos (by omega)]
  · rw [Function.update_noteq h2]
    by_cases h1 : k = 3 * i + 1
    · subst h1
      rw [Function.update_same, if_pos (by omega)]
    · rw [Function.update_noteq h1]
      by_cases h0 : k = 3 * i
      · subst h0
        rw [Function.update_same, if_pos (by omega)]
      · rw [Function.update_noteq h0, if_neg (by omega)]

/-- The fast loop iteration leaves the uv array untouched. -/
theorem write_tri_fast_uvs (S o0 o1 o2 : ℚ) (geo : GeoBuffers)
    (m : HostMesh) (i : ℕ) :
    (write_tri_fast S o0 o1 o2 geo m i).uvs = m.uvs := rfl

/-- The fast loop iteration leaves the vertex-color array untouched. -/
theorem write_tri_fast_cols (S o0 o1 o2 : ℚ) (geo : GeoBuffers)
    (m : HostMesh) (i : ℕ) :
    (write_tri_fast S o0 o1 o2 geo m i).cols = m.cols := rfl

/-- Vertex array after the full decode loop over `n` triangles: written
with the decoded position below index `3n`, untouched from there on. -/
theorem foldl_write_verts (S o0 o1 o2 : ℚ) (geo : GeoBuffers) (n : ℕ)
    (m : HostMesh) (k : ℕ) :
    (((List.range n).foldl (write_tri S o0 o1 o2 geo) m)).verts k =
      if k < 3 * n then decode_vert S o0 o1 o2 geo k else m.verts k := by
  induction n generalizing m with
  | zero => simp
  | succ n ih =>
    rw [List.range_succ, List.foldl_append, List.foldl_cons, List.foldl_nil,
        write_tri_verts_apply]
    by_cases hk : 3 * n ≤ k ∧ k < 3 * n + 3
    · rw [if_pos hk, if_pos (by omega)]
    · rw [if_neg hk, ih]
      by_cases hk2 : k < 3 * n
      · rw [if_pos hk2, if_pos (by omega)]
      · rw [if_neg hk2, if_neg (by omega)]

/-- Uv array after the full decode loop over `n` triangles. -/
theorem foldl_write_uvs (S o0 o1 o2 : ℚ) (geo : GeoBuffers) (n : ℕ)
    (m : HostMesh) (k : ℕ) :
    (((List.range n).foldl (write_tri S o0 o1 o2 geo) m)).uvs k =
      if k < 3 * n then (geo.uv (2 * k), geo.uv (2 * k + 1)) else m.uvs k := by
  induction n generalizing m with
  | zero => simp
  | succ n ih =>
    rw [List.range_succ, List.foldl_append, List.foldl_cons, List.foldl_nil,
        write_tri_uvs_apply]
    by_cases hk : 3 * n ≤ k ∧ k < 3 * n + 3
    · rw [if_pos hk, if_pos (by omega)]
    · rw [if_neg hk, ih]
      by_cases hk2 : k < 3 * n
      · rw [if_pos hk2, if_pos (by omega)]
      · rw [if_neg hk2, if_neg (by omega)]

/-- Vertex-color array after the full decode loop over `n` triangles. -/
theorem foldl_write_cols (S o0 o1 o2 : ℚ) (geo : GeoBuffers) (n : ℕ)
    (m : HostMesh) (k : ℕ) :
    (((List.range n).foldl (write_tri S o0 o1 o2 geo) m)).cols k =
      if k < 3 * n then
        (geo.color (3 * k), geo.color (3 * k + 1), geo.color (3 * k + 2), 1)
      else m.cols k := by
  induction n generalizing m with
  | zero => simp
  | succ n ih =>
    rw [List.range_succ, List.foldl_append, List.foldl_cons, List.foldl_nil,
        write_tri_cols_apply]
    by_cases hk : 3 * n ≤ k ∧ k < 3 * n + 3
    · rw [if_pos hk, if_pos (by omega)]
    · rw [if_neg hk, ih]
      by_cases hk2 : k < 3 * n
      · rw [if_pos hk2, if_pos (by omega)]
      · rw [if_neg hk2, if_neg (by omega)]

/-- Vertex array after the fast decode loop over `n` triangles. -/
theorem foldl_write_fast_verts (S o0 o1 o2 : ℚ) (geo : GeoBuffers) (n : ℕ)
    (m : HostMesh) (k : ℕ) :
    (((List.range n).foldl (write_tri_fast S o0 o1 o2 geo) m)).verts k =
      if k < 3 * n then decode_vert S o0 o1 o2 geo k else m.verts k := by
  induction n generalizing m with
  | zero => simp
  | succ n ih =>
    rw [List.range_succ, List.foldl_append, List.foldl_cons, List.foldl_nil,
        write_tri_fast_verts_apply]
    by_cases hk : 3 * n ≤ k ∧ k < 3 * n + 3
    · rw [if_pos hk, if_pos (by omega)]
    · rw [if_neg hk, ih]
      by_cases hk2 : k < 3 * n
      · rw [if_pos hk2, if_pos (by omega)]
      · rw [if_neg hk2, if_neg (by omega)]

/-- The fast decode loop leaves the uv array untouched. -/
theorem foldl_write_fast_uvs (S o0 o1 o2 : ℚ) (geo : GeoBuffers) (n : ℕ)
    (m : HostMesh) :
    (((List.range n).foldl (write_tri_fast S o0 o1 o2 geo) m)).uvs = m.uvs := by
  induction n generalizing m with
  | zero => simp
  | succ n ih =>
    rw [List.range_succ, List.foldl_append, List.foldl_cons, List.foldl_nil,
        write_tri_fast_uvs]
    exact ih m

/-- The fast decode loop leaves the vertex-color array untouched. -/
theorem foldl_write_fast_cols (S o0 o1 o2 : ℚ) (geo : GeoBuffers) (n : ℕ)
    (m : HostMesh) :
    (((List.range n).foldl (write_tri_fast S o0 o1 o2 geo) m)).cols = m.cols := by
  induction n generalizing m with
  | zero => simp
  | succ n ih =>
    rw [List.range_succ, List.foldl_append, List.foldl_cons, List.foldl_nil,
        write_tri_fast_cols]
    exact ih m

/-- Claim C9: with `numTrianglesUsed` at most the fixed maximum of 1024
triangles, both decode modes write exactly the first
`3 * numTrianglesUsed` vertices (and corresponding loops in full mode) —
every touched index lies within the preallocated capacity and carries the
decoded value — while all entries from index `3 * numTrianglesUsed` on
keep their previous values; the fast mode never touches uv or color
data. -/
theorem C9_write_extent (S o0 o1 o2 : ℚ) (geo : GeoBuffers) (m : HostMesh)
    (hcap : geo.numTrianglesUsed ≤ 1024) :
    (∀ k, k < 3 * geo.numTrianglesUsed → k < 3 * 1024 ∧
        (update_mesh_data S o0 o1 o2 geo m).verts k = decode_vert S o0 o1 o2 geo k ∧
        (update_mesh_data S o0 o1 o2 geo m).uvs k = (geo.uv (2 * k), geo.uv (2 * k + 1)) ∧
        (update_mesh_data S o0 o1 o2 geo m).cols k
          = (geo.color (3 * k), geo.color (3 * k + 1), geo.color (3 * k + 2), 1) ∧
        (update_mesh_data_fast S o0 o1 o2 geo m).verts k = decode_vert S o0 o1 o2 geo k) ∧
    (∀ k, 3 * geo.numTrianglesUsed ≤ k →
        (update_mesh_data S o0 o1 o2 geo m).verts k = m.verts k ∧
        (update_mesh_data S o0 o1 o2 geo m).uvs k = m.uvs k ∧
        (update_mesh_data S o0 o1 o2 geo m).cols k = m.cols k ∧
        (update_mesh_data_fast S o0 o1 o2 geo m).verts k = m.verts k) ∧
    (update_mesh_data_fast S o0 o1 o2 geo m).uvs = m.uvs ∧
    (update_mesh_data_fast S o0 o1 o2 geo m).cols = m.cols := by
  unfold update_mesh_data update_mesh_data_fast
  refine ⟨?_, ?_, foldl_write_fast_uvs S o0 o1 o2 geo _ m,
    foldl_write_fast_cols S o0 o1 o2 geo _ m⟩
  · intro k hk
    refine ⟨by omega, ?_, ?_, ?_, ?_⟩
    · rw [foldl_write_verts, if_pos hk]
    · rw [foldl_write_uvs, if_pos hk]
    · rw [foldl_write_cols, if_pos hk]
    · rw [foldl_write_fast_verts, if_pos hk]
  · intro k hk
    refine ⟨?_, ?_, ?_, ?_⟩
    · rw [foldl_write_verts, if_neg (by omega)]
    · rw [foldl_write_uvs, if_neg (by omega)]
    · rw [foldl_write_cols, if_neg (by omega)]
    · rw [foldl_write_fast_verts, if_neg (by omega)]

/-- Witness for `C9_write_extent`: with one used triangle, vertex 5 (past
index 3·1) keeps its previous value in both modes. -/
theorem C9_write_extent_witness :
    oneTriGeo.numTrianglesUsed ≤ 1024 ∧ 3 * oneTriGeo.numTrianglesUsed ≤ 5 ∧
    ((update_mesh_data 1 0 0 0 oneTriGeo sevenMesh).verts 5
        = sevenMesh.verts 5 ∧
     (update_mesh_data_fast 1 0 0 0 oneTriGeo sevenMesh).verts 5
        = sevenMesh.verts 5) :=
  ⟨by decide, by decide,
   ⟨((C9_write_extent 1 0 0 0 oneTriGeo sevenMesh (by decide)).2.1 5 (by decide)).1,
    ((C9_write_extent 1 0 0 0 oneTriGeo sevenMesh (by decide)).2.1 5 (by decide)).2.2.2⟩⟩

end LibSM64Blender
